import Mathlib

/-!
Verification of the `mcp-ssh-executor` server (src/main.go): a shallow
embedding of its session manager (`SSHExecutor.Connect`, `ExecuteCommand`,
`Disconnect`) and of its JSON-RPC dispatcher loop (`main`), with theorems
settling the spec's claims about request/response correlation, error
channels, the tool catalog, and the session lifecycle.

External effects (environment variables, file reads, key parsing, TCP
dialing, remote command execution) are modelled by an explicit `SSHWorld`
of oracle functions; network connections obtained from `ssh.Dial` are
tracked as handles so that resource claims (leaks, at-most-one session)
are expressible.
-/

set_option maxRecDepth 2000

namespace SSHExec

/-- A JSON value, the shallow embedding of Go's `interface{}` holding a
decoded JSON document (`encoding/json.Unmarshal` into `interface{}`). -/
inductive JSON where
  | null : JSON
  | bool (b : Bool) : JSON
  | num (n : Int) : JSON
  | str (s : String) : JSON
  | arr (elems : List JSON) : JSON
  | obj (fields : List (String × JSON)) : JSON

/-- Lookup of a key in a JSON object's field list: Go's `m[key]` on a
`map[string]interface{}` (first binding wins; absent key gives `none`,
Go's untyped `nil`). -/
def JSON.lookup : JSON → String → Option JSON
  | .obj fields, key => fields.lookup key
  | _, _ => none

/-- Go type assertion `v.(string)`. -/
def JSON.asString : Option JSON → Option String
  | some (.str s) => some s
  | _ => none

/-- Go type assertion `v.(map[string]interface{})`; returns the field list
on success. -/
def JSON.asObj : Option JSON → Option (List (String × JSON))
  | some (.obj fields) => some fields
  | _ => none

/-- The process environment: results of `os.Getenv` for the five
configuration variables read by `Connect`. `os.Getenv` returns `""` for an
unset variable, so plain strings model both unset and empty. -/
structure Env where
  sshHost : String
  sshUser : String
  sshPassword : String
  sshKeyPath : String
  sshPort : String
deriving Repr, DecidableEq

/-- An authentication method placed in `ssh.ClientConfig.Auth`:
`ssh.Password(...)` or `ssh.PublicKeys(signer)` (the signer identified by
the raw key bytes it was parsed from). -/
inductive AuthMethod where
  | password (p : String) : AuthMethod
  | publicKey (keyBytes : String) : AuthMethod
deriving Repr, DecidableEq

/-- Oracle for the external world: file system, key parser, TCP/SSH
transport, and the remote host's behavior.  `dial` answers
`ssh.Dial("tcp", addr, config)` by address, user and auth list;
`newSession` answers `client.NewSession()` per client handle; and
`combinedOutput` answers `session.CombinedOutput(cmd)` with the combined
output stream and, for a failed execution, an error message. -/
structure SSHWorld where
  readFile : String → Except String String
  parsePrivateKey : String → Except String Unit
  dial : String → String → List AuthMethod → Except String Unit
  newSession : Nat → Except String Unit
  combinedOutput : Nat → String → String × Option String

/-- The mutable state of the process: the stored `SSHExecutor.client`
pointer (a handle or nil), the set of client connections opened by
`ssh.Dial` and not yet closed by `client.Close()` (for resource
accounting), and the next fresh handle. -/
structure ExecState where
  client : Option Nat
  openHandles : List Nat
  nextHandle : Nat
deriving Repr, DecidableEq

/-- The initial state: `executor := &SSHExecutor{}` — nil client, no open
connections. -/
def initState : ExecState := ⟨none, [], 0⟩

/-- Go's `strconv.Atoi` with the error ignored (`port, _ :=
strconv.Atoi(portStr)`): the parsed integer, or `0` when parsing fails. -/
def atoiOrZero (s : String) : Int := (s.toInt?).getD 0

/-- `fmt.Sprintf("%s:%d", host, port)`. -/
def addrString (host : String) (port : Int) : String :=
  host ++ ":" ++ toString port

/-- `SSHExecutor.Connect` (src/main.go lines 17–61): reads the five
environment variables, requires host and user, builds the auth list
(password first if non-empty, then the private key if a path is set,
failing if the key file cannot be read or parsed), dials, and on success
stores the new client handle.  The previously stored client, if any, is
*not* closed: it is only overwritten. -/
def connectGo (w : SSHWorld) (env : Env) (st : ExecState) :
    Except String Unit × ExecState :=
  let portStr := if env.sshPort = "" then "22" else env.sshPort
  let port := atoiOrZero portStr
  if env.sshHost = "" ∨ env.sshUser = "" then
    (.error "SSH_HOST and SSH_USER required", st)
  else
    let auth0 : List AuthMethod :=
      if env.sshPassword ≠ "" then [.password env.sshPassword] else []
    let authRes : Except String (List AuthMethod) :=
      if env.sshKeyPath ≠ "" then
        match w.readFile env.sshKeyPath with
        | .error e => .error e
        | .ok key =>
          match w.parsePrivateKey key with
          | .error e => .error e
          | .ok _ => .ok (auth0 ++ [.publicKey key])
      else .ok auth0
    match authRes with
    | .error e => (.error e, st)
    | .ok auth =>
      match w.dial (addrString env.sshHost port) env.sshUser auth with
      | .error e => (.error e, st)
      | .ok _ =>
        let h := st.nextHandle
        (.ok (),
         { client := some h,
           openHandles := st.openHandles ++ [h],
           nextHandle := h + 1 })

/-- Result triple of `SSHExecutor.ExecuteCommand`: `(stdout, stderr, err)`
with `err` the message of the returned Go error, if any. -/
structure ExecResult where
  stdout : String
  stderr : String
  err : Option String
deriving Repr, DecidableEq

/-- `SSHExecutor.ExecuteCommand` (src/main.go lines 63–80): fails with
"not connected" when no client is stored; otherwise opens a fresh
execution session, runs the command capturing the combined output stream,
and on execution failure returns `("", combinedOutput, err)`, on success
`(combinedOutput, "", nil)`.  The execution session is per-call
(`defer session.Close()`) and does not change the stored client. -/
def executeCommandGo (w : SSHWorld) (st : ExecState) (cmd : String) :
    ExecResult :=
  match st.client with
  | none => ⟨"", "", some "not connected"⟩
  | some h =>
    match w.newSession h with
    | .error e => ⟨"", "", some e⟩
    | .ok _ =>
      match w.combinedOutput h cmd with
      | (output, some e) => ⟨"", output, some e⟩
      | (output, none) => ⟨output, "", none⟩

/-- `SSHExecutor.Disconnect` (src/main.go lines 82–87): closes the stored
client, if any, and nils the pointer; otherwise a no-op. -/
def disconnectGo (st : ExecState) : ExecState :=
  match st.client with
  | none => st
  | some h =>
    { client := none,
      openHandles := st.openHandles.filter (· ≠ h),
      nextHandle := st.nextHandle }

/-! ## The JSON-RPC dispatcher (src/main.go `main`) -/

/-- The `JSONRPCRequest` struct: protocol tag, optional numeric id,
method name, and the raw decoded params (absent params decode to Go's
`nil`, hence `Option`). -/
structure JSONRPCRequest where
  jsonrpc : String
  id : Option Int
  method : String
  params : Option JSON

/-- The `JSONRPCError` struct: numeric code and message. -/
structure JSONRPCError where
  code : Int
  message : String
deriving Repr, DecidableEq

/-- A `Content` block of a tool call result: a type tag and text. -/
structure Content where
  type : String
  text : String
deriving Repr, DecidableEq

/-- The `CallToolResult` struct: content blocks and the domain-level
error flag. -/
structure CallToolResult where
  content : List Content
  isError : Bool
deriving Repr, DecidableEq

/-- The `Tool` struct of the catalog: name, description and a
JSON-Schema-like input schema. -/
structure Tool where
  name : String
  description : String
  inputSchema : JSON

/-- The possible values bound to `main`'s `result` variable before
serialization: the `initialize` capability map, a `ListToolsResult`, or a
`CallToolResult`. -/
inductive ResultPayload where
  | initializeResult (v : JSON) : ResultPayload
  | toolsList (tools : List Tool) : ResultPayload
  | callResult (r : CallToolResult) : ResultPayload

/-- The `JSONRPCResponse` struct as marshalled: `Result` and `Error` both
carry `omitempty`, so each is present exactly when non-nil. -/
structure JSONRPCResponse where
  id : Int
  result : Option ResultPayload
  error : Option JSONRPCError

/-- The fixed `initialize` result (src/main.go lines 144–154). -/
def initializeValue : JSON :=
  .obj [("protocolVersion", .str "2024-11-05"),
        ("capabilities", .obj [("tools", .obj [])]),
        ("serverInfo", .obj [("name", .str "ssh-executor"),
                             ("version", .str "1.0.0")])]

/-- The fixed tool catalog returned by `tools/list`
(src/main.go lines 155–188). -/
def toolCatalog : List Tool :=
  [{ name := "connect_ssh",
     description := "Connect to SSH server",
     inputSchema := .obj [("type", .str "object"),
                          ("properties", .obj [])] },
   { name := "execute_command",
     description := "Execute command on remote server",
     inputSchema := .obj [("type", .str "object"),
                          ("properties",
                            .obj [("command",
                                   .obj [("type", .str "string")])]),
                          ("required", .arr [.str "command"])] },
   { name := "disconnect_ssh",
     description := "Disconnect from SSH server",
     inputSchema := .obj [("type", .str "object"),
                          ("properties", .obj [])] }]

/-- A session-manager operation invoked while handling one request, for
tracing which tool bodies actually ran. -/
inductive SessionOp where
  | connectOp : SessionOp
  | executeOp (cmd : String) : SessionOp
  | disconnectOp : SessionOp
deriving Repr, DecidableEq

/-- The `tools/call` branch (src/main.go lines 189–241): params must be a
JSON object carrying a string `name`; `arguments` is optionally an object
(Go's failed type assertion with `_` leaves a nil map, on which lookups
miss).  Routes to the three tools or the `-32601` fallback. -/
def handleToolsCall (w : SSHWorld) (env : Env) (st : ExecState)
    (params : Option JSON) :
    (Option ResultPayload × Option JSONRPCError) × ExecState ×
      List SessionOp :=
  match JSON.asObj params with
  | none => ((none, some ⟨-32602, "Invalid params"⟩), st, [])
  | some fields =>
    match JSON.asString (fields.lookup "name") with
    | none => ((none, some ⟨-32602, "Invalid params"⟩), st, [])
    | some name =>
      let args : List (String × JSON) :=
        (JSON.asObj (fields.lookup "arguments")).getD []
      if name = "connect_ssh" then
        let c := connectGo w env st
        match c.1 with
        | .error e =>
          ((some (.callResult
              ⟨[⟨"text", "Connection failed: " ++ e⟩], true⟩), none),
           c.2, [.connectOp])
        | .ok _ =>
          ((some (.callResult
              ⟨[⟨"text", "Connected to SSH server"⟩], false⟩), none),
           c.2, [.connectOp])
      else if name = "execute_command" then
        match JSON.asString (args.lookup "command") with
        | none =>
          ((some (.callResult
              ⟨[⟨"text", "command parameter required"⟩], true⟩), none),
           st, [])
        | some cmd =>
          let r := executeCommandGo w st cmd
          match r.err with
          | some e =>
            ((some (.callResult
                ⟨[⟨"text", "Command failed: " ++ e ++ "\nOutput: " ++
                    r.stdout ++ "\nError: " ++ r.stderr⟩], true⟩), none),
             st, [.executeOp cmd])
          | none =>
            ((some (.callResult
                ⟨[⟨"text", "Output:\n" ++ r.stdout⟩], false⟩), none),
             st, [.executeOp cmd])
      else if name = "disconnect_ssh" then
        ((some (.callResult
            ⟨[⟨"text", "Disconnected from SSH server"⟩], false⟩), none),
         disconnectGo st, [.disconnectOp])
      else
        ((none, some ⟨-32601, "Method not found"⟩), st, [])

/-- One id-carrying request dispatched by method (src/main.go lines
141–250): produces the response envelope (id copied from the request),
the next state, and the trace of session-manager operations invoked. -/
def handleRequest (w : SSHWorld) (env : Env) (st : ExecState)
    (req : JSONRPCRequest) (reqId : Int) :
    JSONRPCResponse × ExecState × List SessionOp :=
  if req.method = "initialize" then
    (⟨reqId, some (.initializeResult initializeValue), none⟩, st, [])
  else if req.method = "tools/list" then
    (⟨reqId, some (.toolsList toolCatalog), none⟩, st, [])
  else if req.method = "tools/call" then
    let r := handleToolsCall w env st req.params
    (⟨reqId, r.1.1, r.1.2⟩, r.2.1, r.2.2)
  else
    (⟨reqId, none, some ⟨-32601, "Method not found"⟩⟩, st, [])

/-- One line of standard input, seen at the point after
`json.Unmarshal`: either the line failed to parse as a request envelope,
or it produced a `JSONRPCRequest`. -/
inductive InputLine where
  | parseFail : InputLine
  | parsed (req : JSONRPCRequest) : InputLine

/-- The body of the read loop for one line (src/main.go lines 132–253):
unparseable lines and id-less requests are skipped with no output and no
session-manager call; otherwise the request is handled and exactly the
one response line is printed. -/
def processLine (w : SSHWorld) (env : Env) (st : ExecState)
    (line : InputLine) :
    ExecState × List JSONRPCResponse × List SessionOp :=
  match line with
  | .parseFail => (st, [], [])
  | .parsed req =>
    match req.id with
    | none => (st, [], [])
    | some i =>
      let r := handleRequest w env st req i
      (r.2.1, [r.1], r.2.2)

/-- The whole read loop: processes lines in order until the input is
exhausted, concatenating the emitted response lines. -/
def runLines (w : SSHWorld) (env : Env) (st : ExecState) :
    List InputLine → ExecState × List JSONRPCResponse × List SessionOp
  | [] => (st, [], [])
  | line :: rest =>
    let p := processLine w env st line
    let q := runLines w env p.1 rest
    (q.1, p.2.1 ++ q.2.1, p.2.2 ++ q.2.2)

/-! ## Concrete worlds and environments for witnesses -/

/-- A world where every external operation succeeds: the key file reads
and parses, dialing succeeds, sessions open, and every command prints
`hi` and exits 0. -/
def wHappy : SSHWorld :=
  { readFile := fun _ => .ok "KEYDATA",
    parsePrivateKey := fun _ => .ok (),
    dial := fun _ _ _ => .ok (),
    newSession := fun _ => .ok (),
    combinedOutput := fun _ _ => ("hi", none) }

/-- Like `wHappy` but every remote command fails (non-zero exit) after
producing partial combined output. -/
def wExecFail : SSHWorld :=
  { wHappy with
    combinedOutput := fun _ _ =>
      ("partial output", some "Process exited with status 1") }

/-- A complete configuration: host and user set, password auth, default
port. -/
def envFull : Env :=
  { sshHost := "example.com", sshUser := "alice", sshPassword := "pw",
    sshKeyPath := "", sshPort := "" }

/-- A configuration with the host variable unset. -/
def envNoHost : Env :=
  { sshHost := "", sshUser := "alice", sshPassword := "pw",
    sshKeyPath := "", sshPort := "" }

/-- The `tools/call` params invoking `connect_ssh`. -/
def connectParams : JSON := .obj [("name", .str "connect_ssh")]

/-- The `tools/call` params invoking `execute_command` with the given
command string. -/
def execParams (cmd : String) : JSON :=
  .obj [("name", .str "execute_command"),
        ("arguments", .obj [("command", .str cmd)])]

/-- The `tools/call` params invoking `disconnect_ssh`. -/
def disconnectParams : JSON := .obj [("name", .str "disconnect_ssh")]

/-- A `tools/call` request with the given id and params. -/
def callReq (i : Int) (p : JSON) : JSONRPCRequest :=
  ⟨"2.0", some i, "tools/call", some p⟩

/-- Exactly one of a result payload and an error object is present
(after marshalling with `omitempty`, exactly one member appears). -/
def exactlyOneOf (res : Option ResultPayload)
    (err : Option JSONRPCError) : Prop :=
  (res.isSome = true ∧ err.isSome = false) ∨
    (res.isSome = false ∧ err.isSome = true)

/-- The tool names of a `tools/list` result payload. -/
def respToolNames (resp : JSONRPCResponse) : Option (List String) :=
  match resp.result with
  | some (.toolsList ts) => some (ts.map Tool.name)
  | _ => none

/-- The `isError` flag of a tool call result payload. -/
def respIsError (resp : JSONRPCResponse) : Option Bool :=
  match resp.result with
  | some (.callResult r) => some r.isError
  | _ => none

/-- The text of the first content block of a tool call result payload. -/
def respFirstText (resp : JSONRPCResponse) : Option String :=
  match resp.result with
  | some (.callResult r) => (r.content.map Content.text).head?
  | _ => none

/-! ## Helper lemmas -/

/-- `handleToolsCall` always produces exactly one of a result payload and
an error object. -/
theorem handleToolsCall_exactlyOne (w : SSHWorld) (env : Env)
    (st : ExecState) (params : Option JSON) :
    exactlyOneOf (handleToolsCall w env st params).1.1
      (handleToolsCall w env st params).1.2 := by
  unfold handleToolsCall exactlyOneOf
  repeat' split
  all_goals try simp
  all_goals (split <;> first | simp | (split <;> simp))

/-- `handleRequest` copies the request id into the response and produces
exactly one of a result payload and an error object. -/
theorem handleRequest_id_exactlyOne (w : SSHWorld) (env : Env)
    (st : ExecState) (req : JSONRPCRequest) (i : Int) :
    (handleRequest w env st req i).1.id = i ∧
      exactlyOneOf (handleRequest w env st req i).1.result
        (handleRequest w env st req i).1.error := by
  unfold handleRequest
  repeat' split
  · exact ⟨rfl, Or.inl (by simp [exactlyOneOf])⟩
  · exact ⟨rfl, Or.inl (by simp [exactlyOneOf])⟩
  · exact ⟨rfl, handleToolsCall_exactlyOne w env st req.params⟩
  · exact ⟨rfl, Or.inr (by simp [exactlyOneOf])⟩

/-- Handling an id-carrying parsed line emits exactly the one response of
`handleRequest`. -/
theorem processLine_parsed_eq (w : SSHWorld) (env : Env) (st : ExecState)
    (req : JSONRPCRequest) (i : Int) (h : req.id = some i) :
    processLine w env st (.parsed req)
      = ((handleRequest w env st req i).2.1,
         [(handleRequest w env st req i).1],
         (handleRequest w env st req i).2.2) := by
  simp only [processLine]
  rw [h]

/-! ## Claim theorems -/

/-- C1: For every input line that parses as a request envelope carrying a
numeric id, the dispatcher emits exactly one response line whose id
equals the request's id, and that response contains exactly one of a
result payload or an error object, never both and never neither. -/
theorem dispatch_one_correlated_response (w : SSHWorld) (env : Env)
    (st : ExecState) (req : JSONRPCRequest) (i : Int)
    (h : req.id = some i) :
    ∃ resp, (processLine w env st (.parsed req)).2.1 = [resp] ∧
      resp.id = i ∧ exactlyOneOf resp.result resp.error := by
  refine ⟨(handleRequest w env st req i).1, ?_, ?_, ?_⟩
  · rw [processLine_parsed_eq w env st req i h]
  · exact (handleRequest_id_exactlyOne w env st req i).1
  · exact (handleRequest_id_exactlyOne w env st req i).2

/-- C1 witness: the `tools/list` request with id 1. -/
theorem dispatch_one_correlated_response_witness :
    ∃ resp,
      (processLine wHappy envFull initState
          (.parsed ⟨"2.0", some 1, "tools/list", none⟩)).2.1 = [resp] ∧
        resp.id = 1 ∧ exactlyOneOf resp.result resp.error :=
  dispatch_one_correlated_response wHappy envFull initState
    ⟨"2.0", some 1, "tools/list", none⟩ 1 rfl

/-- C5: An unparseable input line, and a parsed request carrying no id,
produce zero response lines and invoke no session-manager operation, and
the loop continues with the rest of the input unchanged. -/
theorem skip_unparseable_and_notifications (w : SSHWorld) (env : Env)
    (st : ExecState) (req : JSONRPCRequest) (rest : List InputLine)
    (h : req.id = none) :
    processLine w env st .parseFail = (st, [], []) ∧
    processLine w env st (.parsed req) = (st, [], []) ∧
    runLines w env st (.parseFail :: rest) = runLines w env st rest ∧
    runLines w env st (.parsed req :: rest) = runLines w env st rest := by
  have h1 : processLine w env st .parseFail = (st, [], []) := rfl
  have h2 : processLine w env st (.parsed req) = (st, [], []) := by
    simp only [processLine]
    rw [h]
  refine ⟨h1, h2, ?_, ?_⟩ <;> simp [runLines, h1, h2]

/-- C5 witness: a notification (`tools/list` without id) followed by
nothing. -/
theorem skip_unparseable_and_notifications_witness :
    processLine wHappy envFull initState .parseFail
        = (initState, [], []) ∧
      processLine wHappy envFull initState
          (.parsed ⟨"2.0", none, "tools/list", none⟩)
        = (initState, [], []) ∧
      runLines wHappy envFull initState (.parseFail :: [])
        = runLines wHappy envFull initState [] ∧
      runLines wHappy envFull initState
          (.parsed ⟨"2.0", none, "tools/list", none⟩ :: [])
        = runLines wHappy envFull initState [] :=
  skip_unparseable_and_notifications wHappy envFull initState
    ⟨"2.0", none, "tools/list", none⟩ [] rfl

/-- C6: A `tools/call` whose params is not a mapping, or whose params
lacks a string `name` member, answers with the protocol-level error
`-32602` "Invalid params"; no tool runs, the state is unchanged. -/
theorem invalid_params_protocol_error (w : SSHWorld) (env : Env)
    (st : ExecState) (i : Int) (jr : String) (params : Option JSON)
    (h : JSON.asObj params = none ∨
      ∃ fields, JSON.asObj params = some fields ∧
        JSON.asString (fields.lookup "name") = none) :
    handleRequest w env st ⟨jr, some i, "tools/call", params⟩ i
      = (⟨i, none, some ⟨-32602, "Invalid params"⟩⟩, st, []) := by
  have hc : handleToolsCall w env st params
      = ((none, some ⟨-32602, "Invalid params"⟩), st, []) := by
    rcases h with h | ⟨fields, hf, hn⟩
    · unfold handleToolsCall
      rw [h]
    · simp only [handleToolsCall, hf, hn]
  simp [handleRequest, hc]

/-- C6 witness: params is a bare string (not a mapping). -/
theorem invalid_params_protocol_error_witness :
    handleRequest wHappy envFull initState
        ⟨"2.0", some 4, "tools/call", some (.str "oops")⟩ 4
      = (⟨4, none, some ⟨-32602, "Invalid params"⟩⟩, initState, []) :=
  invalid_params_protocol_error wHappy envFull initState 4 "2.0"
    (some (.str "oops")) (Or.inl rfl)

/-- C7: A request whose method is none of `initialize`, `tools/list`,
`tools/call` answers with the protocol-level error `-32601` "Method not
found", and so does a well-formed `tools/call` whose tool name is none of
`connect_ssh`, `execute_command`, `disconnect_ssh`. -/
theorem unknown_method_or_tool_not_found :
    (∀ (w : SSHWorld) (env : Env) (st : ExecState) (req : JSONRPCRequest)
      (i : Int), req.method ≠ "initialize" → req.method ≠ "tools/list" →
      req.method ≠ "tools/call" →
      handleRequest w env st req i
        = (⟨i, none, some ⟨-32601, "Method not found"⟩⟩, st, [])) ∧
    (∀ (w : SSHWorld) (env : Env) (st : ExecState) (params : Option JSON)
      (fields : List (String × JSON)) (toolName : String),
      JSON.asObj params = some fields →
      JSON.asString (fields.lookup "name") = some toolName →
      toolName ≠ "connect_ssh" → toolName ≠ "execute_command" →
      toolName ≠ "disconnect_ssh" →
      handleToolsCall w env st params
        = ((none, some ⟨-32601, "Method not found"⟩), st, [])) := by
  constructor
  · intro w env st req i h1 h2 h3
    unfold handleRequest
    rw [if_neg h1, if_neg h2, if_neg h3]
  · intro w env st params fields toolName hf hn n1 n2 n3
    simp [handleToolsCall, hf, hn, n1, n2, n3]

/-- C7 witness: the method `ping`, and the tool `unknown_tool`. -/
theorem unknown_method_or_tool_not_found_witness :
    handleRequest wHappy envFull initState ⟨"2.0", some 7, "ping", none⟩ 7
        = (⟨7, none, some ⟨-32601, "Method not found"⟩⟩, initState, []) ∧
      handleToolsCall wHappy envFull initState
          (some (.obj [("name", .str "unknown_tool")]))
        = ((none, some ⟨-32601, "Method not found"⟩), initState, []) :=
  ⟨unknown_method_or_tool_not_found.1 wHappy envFull initState
      ⟨"2.0", some 7, "ping", none⟩ 7 (by decide) (by decide) (by decide),
   unknown_method_or_tool_not_found.2 wHappy envFull initState
      (some (.obj [("name", .str "unknown_tool")])) _ "unknown_tool"
      rfl rfl (by decide) (by decide) (by decide)⟩

/-- C9: Every `tools/list` request, in any state, returns a result whose
tools sequence has exactly three entries named `connect_ssh`,
`execute_command`, `disconnect_ssh`, in that order. -/
theorem tools_list_fixed_catalog (w : SSHWorld) (env : Env)
    (st : ExecState) (i : Int) (jr : String) (p : Option JSON) :
    handleRequest w env st ⟨jr, some i, "tools/list", p⟩ i
        = (⟨i, some (.toolsList toolCatalog), none⟩, st, []) ∧
      toolCatalog.length = 3 ∧
      toolCatalog.map Tool.name
        = ["connect_ssh", "execute_command", "disconnect_ssh"] := by
  refine ⟨?_, rfl, rfl⟩
  simp [handleRequest]

/-- The needle occurs contiguously inside the haystack. -/
def containsStr (hay needle : String) : Prop :=
  needle.data <:+: hay.data

/-- Case analysis of `connectGo`: it either succeeds, storing the fresh
handle and adding it to the open connections with everything else as
before, or fails leaving the state untouched. -/
theorem connectGo_cases (w : SSHWorld) (env : Env) (st : ExecState) :
    ((connectGo w env st).1 = .ok () ∧
      (connectGo w env st).2
        = { client := some st.nextHandle,
            openHandles := st.openHandles ++ [st.nextHandle],
            nextHandle := st.nextHandle + 1 }) ∨
    (∃ e, (connectGo w env st).1 = .error e ∧
      (connectGo w env st).2 = st) := by
  unfold connectGo
  repeat' split
  all_goals dsimp only
  all_goals try (repeat' split)
  all_goals
    first
    | exact Or.inl ⟨rfl, rfl⟩
    | exact Or.inr ⟨_, rfl, rfl⟩

/-- C2 counterexample: two `connect_ssh` calls in sequence, both
successful, leave TWO open connections — the handle dialed by the first
call is never closed when the second replaces it, refuting "the prior
session handle is released ... no leaked handle". -/
theorem session_leak_on_reconnect_counterexample :
    ((runLines wHappy envFull initState
        [.parsed (callReq 1 connectParams),
         .parsed (callReq 2 connectParams)]).2.1.map respFirstText
      = [some "Connected to SSH server", some "Connected to SSH server"]) ∧
    ((runLines wHappy envFull initState
        [.parsed (callReq 1 connectParams),
         .parsed (callReq 2 connectParams)]).1.openHandles = [0, 1]) ∧
    ¬ ((runLines wHappy envFull initState
        [.parsed (callReq 1 connectParams),
         .parsed (callReq 2 connectParams)]).1.openHandles.length = 1) := by
  refine ⟨rfl, rfl, ?_⟩
  decide

/-- C2 amended: a successful `connect_ssh` stores the freshly dialed
handle in place of the prior one WITHOUT closing it: the prior connection
stays open (it leaks), and exactly the one new handle is stored. -/
theorem connect_replaces_without_release (w : SSHWorld) (env : Env)
    (st : ExecState) (h : (connectGo w env st).1 = .ok ()) :
    (connectGo w env st).2.client = some st.nextHandle ∧
    (connectGo w env st).2.openHandles
      = st.openHandles ++ [st.nextHandle] := by
  rcases connectGo_cases w env st with ⟨_, h2⟩ | ⟨e, h1, _⟩
  · rw [h2]
    exact ⟨rfl, rfl⟩
  · rw [h1] at h
    exact absurd h (by simp)

/-- C2 amended witness: the second connect over an existing session. -/
theorem connect_replaces_without_release_witness :
    (connectGo wHappy envFull (connectGo wHappy envFull initState).2).2.client
        = some (connectGo wHappy envFull initState).2.nextHandle ∧
      (connectGo wHappy envFull (connectGo wHappy envFull initState).2).2.openHandles
        = (connectGo wHappy envFull initState).2.openHandles
            ++ [(connectGo wHappy envFull initState).2.nextHandle] :=
  connect_replaces_without_release wHappy envFull
    (connectGo wHappy envFull initState).2 rfl

/-- C10: Connect is atomic on failure: whenever it returns an error the
stored state is unchanged, so `execute_command` afterwards behaves
exactly as it did before the failed attempt. -/
theorem connect_atomic_on_failure (w : SSHWorld) (env : Env)
    (st : ExecState) (e : String)
    (h : (connectGo w env st).1 = .error e) :
    (connectGo w env st).2 = st ∧
    ∀ cmd, executeCommandGo w (connectGo w env st).2 cmd
      = executeCommandGo w st cmd := by
  rcases connectGo_cases w env st with ⟨h1, _⟩ | ⟨e', _, h2⟩
  · rw [h] at h1
    exact absurd h1 (by simp)
  · exact ⟨h2, fun cmd => by rw [h2]⟩

/-- C10 witness: a failed connect (missing host) after a successful one
leaves the session of the first connect untouched. -/
theorem connect_atomic_on_failure_witness :
    (connectGo wHappy envNoHost (connectGo wHappy envFull initState).2).2
        = (connectGo wHappy envFull initState).2 ∧
      ∀ cmd, executeCommandGo wHappy
          (connectGo wHappy envNoHost
            (connectGo wHappy envFull initState).2).2 cmd
        = executeCommandGo wHappy (connectGo wHappy envFull initState).2
            cmd :=
  connect_atomic_on_failure wHappy envNoHost
    (connectGo wHappy envFull initState).2
    "SSH_HOST and SSH_USER required" rfl

/-- On `execParams cmd`, `handleToolsCall` reduces definitionally to the
two `execute_command` outcomes, dispatching on the run's error slot. -/
theorem handleToolsCall_execParams (w : SSHWorld) (env : Env)
    (st : ExecState) (cmd : String) :
    handleToolsCall w env st (some (execParams cmd))
      = match (executeCommandGo w st cmd).err with
        | some e =>
          ((some (.callResult ⟨[⟨"text",
              "Command failed: " ++ e ++ "\nOutput: "
                ++ (executeCommandGo w st cmd).stdout ++ "\nError: "
                ++ (executeCommandGo w st cmd).stderr⟩], true⟩), none),
           st, [.executeOp cmd])
        | none =>
          ((some (.callResult ⟨[⟨"text",
              "Output:\n" ++ (executeCommandGo w st cmd).stdout⟩],
              false⟩), none),
           st, [.executeOp cmd]) := rfl

/-- C3: when the remote execution of a command fails, `run` returns the
failure detail together with the partial output it captured (the combined
stream, carried in the stderr slot, the stdout slot empty), and the
`execute_command` tool result text aggregates the failure detail, the
stdout and the stderr in one block. -/
theorem exec_failure_aggregates (w : SSHWorld) (env : Env)
    (st : ExecState) (hnd : Nat) (cmd out e : String)
    (hc : st.client = some hnd)
    (hs : w.newSession hnd = .ok ())
    (ho : w.combinedOutput hnd cmd = (out, some e)) :
    executeCommandGo w st cmd = ⟨"", out, some e⟩ ∧
    (handleToolsCall w env st (some (execParams cmd))).1.1
      = some (.callResult ⟨[⟨"text",
          "Command failed: " ++ e ++ "\nOutput: " ++ "" ++ "\nError: "
            ++ out⟩], true⟩) ∧
    (handleToolsCall w env st (some (execParams cmd))).1.2 = none ∧
    containsStr ("Command failed: " ++ e ++ "\nOutput: " ++ "" ++
        "\nError: " ++ out) e ∧
    containsStr ("Command failed: " ++ e ++ "\nOutput: " ++ "" ++
        "\nError: " ++ out) out := by
  have hr : executeCommandGo w st cmd = ⟨"", out, some e⟩ := by
    simp only [executeCommandGo, hc, hs, ho]
  refine ⟨hr, ?_, ?_, ?_, ?_⟩
  · rw [handleToolsCall_execParams, hr]
  · rw [handleToolsCall_execParams, hr]
  · exact ⟨"Command failed: ".data,
      ("\nOutput: " ++ "" ++ "\nError: " ++ out).data,
      by simp [containsStr, String.data_append]⟩
  · exact ⟨("Command failed: " ++ e ++ "\nOutput: " ++ "" ++
        "\nError: ").data, [],
      by simp [containsStr, String.data_append]⟩

/-- C3 witness: `ls` failing remotely with partial combined output, over
the session obtained by a successful connect. -/
theorem exec_failure_aggregates_witness :
    executeCommandGo wExecFail (connectGo wExecFail envFull initState).2
        "ls" = ⟨"", "partial output", some "Process exited with status 1"⟩ ∧
      (handleToolsCall wExecFail envFull
          (connectGo wExecFail envFull initState).2
          (some (execParams "ls"))).1.1
        = some (.callResult ⟨[⟨"text",
            "Command failed: " ++ "Process exited with status 1" ++
              "\nOutput: " ++ "" ++ "\nError: " ++ "partial output"⟩],
            true⟩) ∧
      (handleToolsCall wExecFail envFull
          (connectGo wExecFail envFull initState).2
          (some (execParams "ls"))).1.2 = none ∧
      containsStr ("Command failed: " ++ "Process exited with status 1" ++
          "\nOutput: " ++ "" ++ "\nError: " ++ "partial output")
        "Process exited with status 1" ∧
      containsStr ("Command failed: " ++ "Process exited with status 1" ++
          "\nOutput: " ++ "" ++ "\nError: " ++ "partial output")
        "partial output" :=
  exec_failure_aggregates wExecFail envFull
    (connectGo wExecFail envFull initState).2 0 "ls" "partial output"
    "Process exited with status 1" rfl rfl rfl

/-- C4: an `execute_command` tool call issued while no session is
connected answers with a successful RPC response — no protocol-level
error object — whose tool call result has `isError` true; when a command
string is supplied, the text reports the "not connected" failure. -/
theorem exec_not_connected_domain_error (w : SSHWorld) (env : Env)
    (st : ExecState) (i : Int) (jr : String) (params : Option JSON)
    (fields : List (String × JSON))
    (hc : st.client = none)
    (hobj : JSON.asObj params = some fields)
    (hname : JSON.asString (fields.lookup "name")
      = some "execute_command") :
    (handleRequest w env st ⟨jr, some i, "tools/call", params⟩ i).1.error
        = none ∧
    (∃ r, (handleRequest w env st
        ⟨jr, some i, "tools/call", params⟩ i).1.result
        = some (.callResult r) ∧ r.isError = true) ∧
    (∀ cmd, JSON.asString
        (((JSON.asObj (fields.lookup "arguments")).getD
          []).lookup "command") = some cmd →
      (handleRequest w env st
          ⟨jr, some i, "tools/call", params⟩ i).1.result
        = some (.callResult ⟨[⟨"text",
            "Command failed: not connected\nOutput: \nError: "⟩],
            true⟩)) := by
  have hmain : handleRequest w env st ⟨jr, some i, "tools/call", params⟩ i
      = (⟨i, (handleToolsCall w env st params).1.1,
            (handleToolsCall w env st params).1.2⟩,
         (handleToolsCall w env st params).2.1,
         (handleToolsCall w env st params).2.2) := by
    simp [handleRequest]
  cases hcmd : JSON.asString
      (((JSON.asObj (fields.lookup "arguments")).getD
        []).lookup "command") with
  | none =>
    have hcall : handleToolsCall w env st params
        = ((some (.callResult
            ⟨[⟨"text", "command parameter required"⟩], true⟩), none),
           st, []) := by
      simp [handleToolsCall, hobj, hname, hcmd]
    refine ⟨?_, ?_, ?_⟩
    · rw [hmain, hcall]
    · exact ⟨⟨[⟨"text", "command parameter required"⟩], true⟩,
        by rw [hmain, hcall], rfl⟩
    · intro cmd hcmd'
      exact absurd hcmd' (by simp)
  | some cmd =>
    have hr : executeCommandGo w st cmd
        = ⟨"", "", some "not connected"⟩ := by
      simp only [executeCommandGo, hc]
    have hcall : handleToolsCall w env st params
        = ((some (.callResult ⟨[⟨"text",
            "Command failed: not connected\nOutput: \nError: "⟩],
            true⟩), none),
           st, [.executeOp cmd]) := by
      simp [handleToolsCall, hobj, hname, hcmd, hr]
    refine ⟨?_, ?_, ?_⟩
    · rw [hmain, hcall]
    · exact ⟨⟨[⟨"text",
          "Command failed: not connected\nOutput: \nError: "⟩], true⟩,
        by rw [hmain, hcall], rfl⟩
    · intro cmd' hcmd'
      rw [hmain, hcall]

/-- C4 witness: `execute_command` with command `ls` in the initial,
never-connected state. -/
theorem exec_not_connected_domain_error_witness :
    (handleRequest wHappy envFull initState
        ⟨"2.0", some 2, "tools/call", some (execParams "ls")⟩ 2).1.error
        = none ∧
    (∃ r, (handleRequest wHappy envFull initState
        ⟨"2.0", some 2, "tools/call", some (execParams "ls")⟩ 2).1.result
        = some (.callResult r) ∧ r.isError = true) ∧
    (∀ cmd, JSON.asString
        (((JSON.asObj (List.lookup "arguments"
          [("name", JSON.str "execute_command"),
           ("arguments", JSON.obj [("command", JSON.str "ls")])])).getD
          []).lookup "command") = some cmd →
      (handleRequest wHappy envFull initState
          ⟨"2.0", some 2, "tools/call", some (execParams "ls")⟩ 2).1.result
        = some (.callResult ⟨[⟨"text",
            "Command failed: not connected\nOutput: \nError: "⟩],
            true⟩)) :=
  exec_not_connected_domain_error wHappy envFull initState 2 "2.0"
    (some (execParams "ls"))
    [("name", JSON.str "execute_command"),
     ("arguments", JSON.obj [("command", JSON.str "ls")])]
    rfl rfl rfl

/-- C8 counterexample: `Connect` consults the environment at the time of
the call: with a complete startup environment, a call that sees the
host variable cleared behaves differently, refuting "every connect_ssh
call uses the configuration as it was at startup". -/
theorem config_read_at_startup_counterexample :
    ¬ (∀ envNow : Env, connectGo wHappy envNow initState
        = connectGo wHappy envFull initState) := by
  intro hclaim
  have h := congrArg Prod.fst (hclaim envNoHost)
  have h1 : (connectGo wHappy envNoHost initState).1
      = .error "SSH_HOST and SSH_USER required" := rfl
  have h2 : (connectGo wHappy envFull initState).1 = .ok () := rfl
  rw [h1, h2] at h
  exact Except.noConfusion h

/-- C8 amended: the configuration is read from the environment at each
`connect_ssh` call: a call made while host or user is unset in the
current environment fails with the missing-config error, whatever the
startup environment contained. -/
theorem connect_reads_env_at_call_time (w : SSHWorld)
    ( _envStartup envNow : Env) (st : ExecState)
    (h : envNow.sshHost = "" ∨ envNow.sshUser = "") :
    connectGo w envNow st
      = (.error "SSH_HOST and SSH_USER required", st) := by
  unfold connectGo
  rw [if_pos h]

/-- C8 amended witness: startup environment complete, host cleared at
call time. -/
theorem connect_reads_env_at_call_time_witness :
    connectGo wHappy envNoHost initState
      = (.error "SSH_HOST and SSH_USER required", initState) :=
  connect_reads_env_at_call_time wHappy envFull envNoHost initState
    (Or.inl rfl)

end SSHExec
